import Mathlib

/-!
Verification of the budget-api repository's aggregation and query layer.

Shallow embedding of the pure computation in the service layer:
  - `TitheService.getAllTithes` / `AssetService.getAllAssetSnapshots` pagination,
  - `DashboardService.getDashboardSummary` / `calculateBudgetMonths`,
  - `AssetService.getAssetTrends`,
  - `TitheService.getTitheSummary`,
  - `DebtService.getDebtSummary`,
  - `IncomeService.getIncomeSummary`, `ExpenseService.getExpenseSummary`,
  - `BudgetYearService.activateBudgetYear`.
Decimal amounts are modelled as `ℚ`; JavaScript dates are modelled by their
(year, month) projections where the code only uses those.
-/

namespace BudgetApi

/-- Model of JavaScript `parseInt` restricted to what the services feed it:
an optional sign followed by a base-10 digit prefix; no digit prefix (the
NaN case) is `none`.  (Leading-whitespace skipping is not modelled; the
query-string inputs of interest carry none.) -/
def jsParseInt (s : String) : Option Int :=
  let digitsVal : List Char → Option Nat := fun cs =>
    let ds := cs.takeWhile Char.isDigit
    if ds.isEmpty then none
    else some (ds.foldl (fun a c => a * 10 + (c.toNat - 48)) 0)
  match s.data with
  | '-' :: rest => (digitsVal rest).map (fun n => -(n : Int))
  | '+' :: rest => (digitsVal rest).map (fun n => (n : Int))
  | cs => (digitsVal cs).map (fun n => (n : Int))

/-- Model of the `parseInt(x) || d` idiom: an absent or non-numeric value,
and the falsy result `0`, all fall back to the default `d`. -/
def jsParseIntOr (d : Int) (s : Option String) : Int :=
  match s with
  | none => d
  | some s =>
    match jsParseInt s with
    | none => d
    | some n => if n = 0 then d else n

/-- The inclusive row range `[from, to]` requested from the store. -/
structure PageRange where
  first : Int
  last : Int
deriving DecidableEq, Repr

/-- The pagination block shared by the list queries
(`const page = parseInt(filters.page) || 1; const limit = parseInt(filters.limit) || defLimit;
const offset = (page - 1) * limit; ... .range(offset, offset + limit - 1)`). -/
def paginate (defLimit : Int) (pageFilter limitFilter : Option String) : PageRange :=
  let page := jsParseIntOr 1 pageFilter
  let limit := jsParseIntOr defLimit limitFilter
  let offset := (page - 1) * limit
  ⟨offset, offset + limit - 1⟩

/-- Pagination of `TitheService.getAllTithes` (also `IncomeService.getAllIncomes`,
`DebtService.getAllDebts`, `ExpenseService.getAllExpenses`,
`SystemSettingsService.getAllSettings`): default limit 50. -/
def tithePaginate : Option String → Option String → PageRange := paginate 50

/-- Pagination of `AssetService.getAllAssetSnapshots`: default limit 20. -/
def assetPaginate : Option String → Option String → PageRange := paginate 20

/-- Model of the summation idiom `list.reduce((sum, x) => sum + f(x), 0)`
used throughout the services (`parseFloat` of a stored decimal is the
identity on the `ℚ` model). -/
def sumBy (f : α → ℚ) (l : List α) : ℚ := (l.map f).sum

/-- The (year, month) projections of a JavaScript `Date` — the only parts
`calculateBudgetMonths` reads (`getFullYear`, `getMonth`). -/
structure YM where
  year : Int
  month : Int
deriving DecidableEq, Repr

namespace DashboardService

/-- `DashboardService.calculateBudgetMonths`:
`(end.getFullYear() - start.getFullYear()) * 12 + (end.getMonth() - start.getMonth()) + 1`,
then `Math.max(1, months)`. -/
def calculateBudgetMonths (start finish : YM) : Int :=
  max 1 ((finish.year - start.year) * 12 + (finish.month - start.month) + 1)

end DashboardService

/-- The `funds(name, type, include_in_budget)` join selected with a
fund-budget row (name unused by the dashboard computation is omitted). -/
structure FundInfo where
  type : String
  include_in_budget : Bool
deriving DecidableEq, Repr

/-- A row of the dashboard's `fund_budgets` fetch; `funds` is `none` when
the join finds no fund, `amount_given`/`spent` are `none` when NULL
(the code reads them as `parseFloat(x || 0)`). -/
structure FundBudgetRow where
  amount : ℚ
  amount_given : Option ℚ
  spent : Option ℚ
  funds : Option FundInfo
deriving DecidableEq, Repr

/-- The three accumulators of the dashboard's fund-budget loop. -/
structure BudgetTotals where
  totalBudget : ℚ
  totalAllocated : ℚ
  totalSpent : ℚ
deriving DecidableEq, Repr

namespace DashboardService

/-- One iteration of the `fundData.data.forEach(fundBudget => ...)` loop:
skip unless `fundBudget.funds?.include_in_budget`; monthly funds add
`amount * budgetMonths` to the budget and `amount_given || 0` to the
allocation; all other types add `amount` to the budget and `spent || 0`
to the spending. -/
def processFundBudget (budgetMonths : Int) (acc : BudgetTotals) (fb : FundBudgetRow) :
    BudgetTotals :=
  match fb.funds with
  | none => acc
  | some f =>
    if f.include_in_budget then
      if f.type = "monthly" then
        { acc with
            totalBudget := acc.totalBudget + fb.amount * (budgetMonths : ℚ)
            totalAllocated := acc.totalAllocated + fb.amount_given.getD 0 }
      else
        { acc with
            totalBudget := acc.totalBudget + fb.amount
            totalSpent := acc.totalSpent + fb.spent.getD 0 }
    else acc

/-- The fund-budget loop of `getDashboardSummary`, starting from zeroed
accumulators. -/
def budgetTotals (budgetMonths : Int) (rows : List FundBudgetRow) : BudgetTotals :=
  rows.foldl (processFundBudget budgetMonths) ⟨0, 0, 0⟩

end DashboardService

/-- A row of the dashboard's `debts` fetch (`amount, type, is_paid`). -/
structure DebtRow where
  amount : ℚ
  type : String
  is_paid : Bool
deriving DecidableEq, Repr

/-- A row of the dashboard's `tasks` fetch (`completed, important`). -/
structure TaskRow where
  completed : Bool
  important : Bool
deriving DecidableEq, Repr

/-- An `asset_details(amount, category)` row. -/
structure AssetDetail where
  amount : ℚ
  category : String
deriving DecidableEq, Repr

namespace DashboardService

/-- Net worth of a detail list: assets minus liabilities, each summed by
filtering on the `category` discriminator. -/
def netWorthOf (details : List AssetDetail) : ℚ :=
  sumBy (·.amount) (details.filter (fun d => d.category == "asset")) -
    sumBy (·.amount) (details.filter (fun d => d.category == "liability"))

/-- The composed dashboard response (the pure reduction of
`getDashboardSummary` lines 104–200, over the seven fetched result sets;
rows and joins irrelevant to a metric are omitted from the row models).
`activeBudgetYear` carries the resolved budget year's date span, `none`
when no budget year was resolved; `assetDetails` is the latest snapshot's
detail list, `none` when the `.single()` fetch found no snapshot. -/
structure DashboardSummary where
  totalIncome : ℚ
  totalExpenses : ℚ
  budget : BudgetTotals
  remaining : ℚ
  balance : ℚ
  owedToMe : ℚ
  iOwe : ℚ
  netDebt : ℚ
  totalTasks : Nat
  completedTasks : Nat
  pendingTasks : Nat
  importantTasks : Nat
  titheGiven : ℚ
  titheExpected : ℚ
  titheBalance : ℚ
  tithePercentage : ℚ
  netWorth : ℚ
deriving DecidableEq, Repr

/-- The client-side reduction of `DashboardService.getDashboardSummary`. -/
def getDashboardSummary (activeBudgetYear : Option (YM × YM))
    (incomes : List ℚ) (expenses : List ℚ) (fundBudgets : List FundBudgetRow)
    (debts : List DebtRow) (tasks : List TaskRow) (tithes : List ℚ)
    (assetDetails : Option (List AssetDetail)) : DashboardSummary :=
  let totalIncome := sumBy id incomes
  let totalExpenses := sumBy id expenses
  let bt := match activeBudgetYear with
    | some (s, e) => budgetTotals (calculateBudgetMonths s e) fundBudgets
    | none => ⟨0, 0, 0⟩
  let owedToMe :=
    sumBy (·.amount) (debts.filter (fun d => d.type == "owed_to_me" && !d.is_paid))
  let iOwe :=
    sumBy (·.amount) (debts.filter (fun d => d.type == "i_owe" && !d.is_paid))
  let totalTasks := tasks.length
  let completedTasks := (tasks.filter (fun t => t.completed)).length
  let importantTasks := (tasks.filter (fun t => t.important && !t.completed)).length
  let totalTithe := sumBy id tithes
  let expectedTithe := totalIncome * (1 / 10)
  let netWorth := match assetDetails with
    | some ds => netWorthOf ds
    | none => 0
  { totalIncome := totalIncome
    totalExpenses := totalExpenses
    budget := bt
    remaining := bt.totalBudget - bt.totalAllocated - bt.totalSpent
    balance := totalIncome - totalExpenses
    owedToMe := owedToMe
    iOwe := iOwe
    netDebt := owedToMe - iOwe
    totalTasks := totalTasks
    completedTasks := completedTasks
    pendingTasks := totalTasks - completedTasks
    importantTasks := importantTasks
    titheGiven := totalTithe
    titheExpected := expectedTithe
    titheBalance := totalTithe - expectedTithe
    tithePercentage := if 0 < totalIncome then totalTithe / totalIncome * 100 else 0
    netWorth := netWorth }

end DashboardService

namespace DebtService

/-- The full result object of `DebtService.getDebtSummary`. -/
structure DebtSummary where
  totalDebts : Nat
  paidDebts : Nat
  unpaidDebts : Nat
  owedToMe : ℚ
  iOwe : ℚ
  unpaidOwedToMe : ℚ
  unpaidIOwe : ℚ
  netBalance : ℚ
  unpaidNetBalance : ℚ
deriving DecidableEq, Repr

/-- `DebtService.getDebtSummary`'s reduction of the fetched
`amount, type, is_paid` rows.  Note `owedToMe`/`iOwe` filter on `type`
only (paid and unpaid alike); the unpaid-only sums are the separate
`unpaidOwedToMe`/`unpaidIOwe` fields. -/
def getDebtSummary (data : List DebtRow) : DebtSummary :=
  let totalDebts := data.length
  let paidDebts := (data.filter (fun d => d.is_paid)).length
  let owedToMe := sumBy (·.amount) (data.filter (fun d => d.type == "owed_to_me"))
  let iOwe := sumBy (·.amount) (data.filter (fun d => d.type == "i_owe"))
  let unpaidOwedToMe :=
    sumBy (·.amount) (data.filter (fun d => d.type == "owed_to_me" && !d.is_paid))
  let unpaidIOwe :=
    sumBy (·.amount) (data.filter (fun d => d.type == "i_owe" && !d.is_paid))
  { totalDebts := totalDebts
    paidDebts := paidDebts
    unpaidDebts := totalDebts - paidDebts
    owedToMe := owedToMe
    iOwe := iOwe
    unpaidOwedToMe := unpaidOwedToMe
    unpaidIOwe := unpaidIOwe
    netBalance := owedToMe - iOwe
    unpaidNetBalance := unpaidOwedToMe - unpaidIOwe }

end DebtService

/-- Model of the `obj[key] = obj[key] || init; obj[key].count++;
obj[key].total += amount` grouping idiom: an association list keyed by the
group label, a fresh key appended at the end. -/
def bump [DecidableEq κ] (k : κ) (a : ℚ) :
    List (κ × Nat × ℚ) → List (κ × Nat × ℚ)
  | [] => [(k, 1, a)]
  | p :: rest =>
    if p.1 = k then (p.1, p.2.1 + 1, p.2.2 + a) :: rest else p :: bump k a rest

/-- The `data.reduce((acc, r) => {...bump...}, {})` grouping fold. -/
def groupAgg [DecidableEq κ] (key : α → κ) (amt : α → ℚ) (rows : List α) :
    List (κ × Nat × ℚ) :=
  rows.foldl (fun acc r => bump (key r) (amt r) acc) []

/-- Sum of the per-group `total` fields. -/
def aggTotal [DecidableEq κ] (l : List (κ × Nat × ℚ)) : ℚ := (l.map (fun e => e.2.2)).sum

/-- Sum of the per-group `count` fields. -/
def aggCount [DecidableEq κ] (l : List (κ × Nat × ℚ)) : Nat := (l.map (fun e => e.2.1)).sum

/-- JavaScript's `x || d` on an optional string: `null`/`undefined` and the
falsy empty string fall back to the default. -/
def jsOrStr (o : Option String) (d : String) : String :=
  match o with
  | none => d
  | some s => if s = "" then d else s

namespace TitheService

/-- A `tithe_given` row as read by the summary (`amount, date`); the date is
modelled by the `getFullYear` projection, the only part the code uses. -/
structure TitheRow where
  amount : ℚ
  dateYear : Int
deriving DecidableEq, Repr

/-- The result object of `TitheService.getTitheSummary`. -/
structure TitheSummary where
  totalTitheGiven : ℚ
  totalIncome : ℚ
  titheCount : Nat
  tithePercentage : ℚ
  expectedTithe : ℚ
  titheBalance : ℚ
  averageTithe : ℚ
  byYear : List (Int × Nat × ℚ)
deriving DecidableEq, Repr

/-- `TitheService.getTitheSummary`'s reduction over the fetched tithe rows
and income amounts. -/
def getTitheSummary (titheData : List TitheRow) (incomeData : List ℚ) : TitheSummary :=
  let totalTitheGiven := sumBy (·.amount) titheData
  let totalIncome := sumBy id incomeData
  let titheCount := titheData.length
  { totalTitheGiven := totalTitheGiven
    totalIncome := totalIncome
    titheCount := titheCount
    tithePercentage := if 0 < totalIncome then totalTitheGiven / totalIncome * 100 else 0
    expectedTithe := totalIncome * (1 / 10)
    titheBalance := totalTitheGiven - totalIncome * (1 / 10)
    averageTithe := if 0 < titheCount then totalTitheGiven / (titheCount : ℚ) else 0
    byYear := groupAgg (·.dateYear) (·.amount) titheData }

end TitheService

namespace IncomeService

/-- An `incomes` row as read by the summary (`amount, source, month`);
`source` is `none` when NULL. -/
structure IncomeRec where
  amount : ℚ
  source : Option String
  month : Int
deriving DecidableEq, Repr

/-- The grouping key of `bySource`: `income.source || 'Other'`. -/
def sourceKey (r : IncomeRec) : String := jsOrStr r.source "Other"

/-- The result object of `IncomeService.getIncomeSummary`. -/
structure IncomeSummary where
  totalAmount : ℚ
  incomeCount : Nat
  averageAmount : ℚ
  bySource : List (String × Nat × ℚ)
  byMonth : List (Int × Nat × ℚ)
deriving DecidableEq, Repr

/-- `IncomeService.getIncomeSummary`'s reduction over the fetched rows. -/
def getIncomeSummary (data : List IncomeRec) : IncomeSummary :=
  let totalAmount := sumBy (·.amount) data
  let incomeCount := data.length
  { totalAmount := totalAmount
    incomeCount := incomeCount
    averageAmount := if 0 < incomeCount then totalAmount / (incomeCount : ℚ) else 0
    bySource := groupAgg sourceKey (·.amount) data
    byMonth := groupAgg (·.month) (·.amount) data }

end IncomeService

namespace ExpenseService

/-- An `expenses` row as read by the summary, with its `categories(name)`
and `funds(name, type)` joins (`none` when the join is empty); the date is
modelled by its `getMonth() + 1` projection. -/
structure ExpenseRec where
  amount : ℚ
  dateMonth : Int
  categoryName : Option String
  fundName : Option String
deriving DecidableEq, Repr

/-- The grouping key of `byCategory`: `expense.categories?.name || 'Uncategorized'`. -/
def categoryKey (r : ExpenseRec) : String := jsOrStr r.categoryName "Uncategorized"

/-- The grouping key of `byFund`: `expense.funds?.name || 'Unknown'`. -/
def fundKey (r : ExpenseRec) : String := jsOrStr r.fundName "Unknown"

/-- The result object of `ExpenseService.getExpenseSummary`. -/
structure ExpenseSummary where
  totalAmount : ℚ
  expenseCount : Nat
  averageAmount : ℚ
  byCategory : List (String × Nat × ℚ)
  byFund : List (String × Nat × ℚ)
  byMonth : List (Int × Nat × ℚ)
deriving DecidableEq, Repr

/-- `ExpenseService.getExpenseSummary`'s reduction over the fetched rows. -/
def getExpenseSummary (data : List ExpenseRec) : ExpenseSummary :=
  let totalAmount := sumBy (·.amount) data
  let expenseCount := data.length
  { totalAmount := totalAmount
    expenseCount := expenseCount
    averageAmount := if 0 < expenseCount then totalAmount / (expenseCount : ℚ) else 0
    byCategory := groupAgg categoryKey (·.amount) data
    byFund := groupAgg fundKey (·.amount) data
    byMonth := groupAgg (·.dateMonth) (·.amount) data }

end ExpenseService

namespace AssetService

/-- An `asset_snapshots` row of the trends fetch: `date` (an opaque
ordinal; the store returns rows date-descending) with its
`asset_details(amount, category)` join. -/
structure SnapshotRow where
  date : Int
  asset_details : List AssetDetail
deriving DecidableEq, Repr

/-- One element of the `trends` array before growth rates are attached. -/
structure Trend where
  date : Int
  totalAssets : ℚ
  totalLiabilities : ℚ
  netWorth : ℚ
deriving DecidableEq, Repr

/-- A `trends` element with its `growthRate`. -/
structure TrendG where
  date : Int
  totalAssets : ℚ
  totalLiabilities : ℚ
  netWorth : ℚ
  growthRate : ℚ
deriving DecidableEq, Repr

/-- The per-snapshot reduction of `getAssetTrends`: filter the details by
`category` and sum the amounts; `netWorth = totalAssets - totalLiabilities`. -/
def snapshotTrend (s : SnapshotRow) : Trend :=
  let totalAssets :=
    sumBy (·.amount) (s.asset_details.filter (fun d => d.category == "asset"))
  let totalLiabilities :=
    sumBy (·.amount) (s.asset_details.filter (fun d => d.category == "liability"))
  ⟨s.date, totalAssets, totalLiabilities, totalAssets - totalLiabilities⟩

/-- The growth-rate formula applied to a non-first element:
`prev !== 0 ? ((cur - prev) / Math.abs(prev)) * 100 : 0`. -/
def growthRateOf (prev cur : ℚ) : ℚ :=
  if prev ≠ 0 then (cur - prev) / |prev| * 100 else 0

/-- The `trends.map((trend, index) => ...)` pass attaching growth rates,
restructured with the predecessor's net worth (`trends[index - 1].netWorth`)
carried as an accumulator: `none` at index 0 (growth rate 0), `some prev`
afterwards. -/
def withGrowthAux : Option ℚ → List Trend → List TrendG
  | _, [] => []
  | prevOpt, t :: rest =>
    let rate := match prevOpt with
      | none => 0
      | some prev => growthRateOf prev t.netWorth
    ⟨t.date, t.totalAssets, t.totalLiabilities, t.netWorth, rate⟩ ::
      withGrowthAux (some t.netWorth) rest

/-- `trendsWithGrowth` over the chronological trends list. -/
def trendsWithGrowth (trends : List Trend) : List TrendG := withGrowthAux none trends

/-- The `summary` object of `getAssetTrends`. -/
structure TrendsSummary where
  currentNetWorth : ℚ
  averageGrowthRate : ℚ
deriving DecidableEq, Repr

/-- The result of `getAssetTrends`. -/
structure AssetTrendsResult where
  trends : List TrendG
  summary : TrendsSummary
deriving DecidableEq, Repr

/-- The pure part of `AssetService.getAssetTrends`: map the fetched
(date-descending) snapshots to net-worth trends, `.reverse()` into
chronological order, attach growth rates, and compute the summary
(`trendsWithGrowth[len - 1]?.netWorth || 0` and the mean of the growth
rates after the first, or 0 when fewer than 2). -/
def getAssetTrends (data : List SnapshotRow) : AssetTrendsResult :=
  let trends := (data.map snapshotTrend).reverse
  let tg := trendsWithGrowth trends
  { trends := tg
    summary :=
      { currentNetWorth := ((tg.getLast?).map (·.netWorth)).getD 0
        averageGrowthRate :=
          if 1 < tg.length then
            sumBy (·.growthRate) (tg.drop 1) / ((tg.length : ℚ) - 1)
          else 0 } }

end AssetService

namespace BudgetYearService

/-- A `budget_years` row (the columns `activateBudgetYear` touches). -/
structure BYRow where
  id : String
  user_id : String
  is_active : Bool
deriving DecidableEq, Repr

/-- Step 1 of `activateBudgetYear`:
`update({is_active: false}).eq('user_id', userId)` over the table. -/
def deactivateAll (userId : String) (db : List BYRow) : List BYRow :=
  db.map (fun r => if r.user_id == userId then { r with is_active := false } else r)

/-- Step 2's row predicate: `.eq('id', budgetYearId).eq('user_id', userId)`. -/
def targetPred (budgetYearId userId : String) (r : BYRow) : Bool :=
  r.id == budgetYearId && r.user_id == userId

/-- Step 2 of `activateBudgetYear`:
`update({is_active: true})` on the rows matching `targetPred`. -/
def setActive (budgetYearId userId : String) (db : List BYRow) : List BYRow :=
  db.map (fun r =>
    if targetPred budgetYearId userId r then { r with is_active := true } else r)

/-- `BudgetYearService.activateBudgetYear` as a table transformer:
deactivate all of the user's budget years, then activate the selected one.
The trailing `.select().single()` of step 2 errors unless the update
matched exactly one row; the returned `Option` is `some` of that row on
success and `none` when the error is thrown — in which case step 1's
writes are already applied and remain. -/
def activateBudgetYear (budgetYearId userId : String) (db : List BYRow) :
    List BYRow × Option BYRow :=
  let db1 := deactivateAll userId db
  if (db1.filter (targetPred budgetYearId userId)).length = 1 then
    let db2 := setActive budgetYearId userId db1
    (db2, (db2.filter (targetPred budgetYearId userId)).head?)
  else
    (db1, none)

end BudgetYearService

/-- A row model for the user-scoping analysis of the dashboard's seven
parallel fetches: the owning user and, where the table carries one, the
budget-year key.  For `fund_budgets` — a table with no `user_id` column —
`owner` is the derived owner via `funds.user_id` (per the schema's
row-security policy), which the query text never references. -/
structure ScopedRow where
  owner : String
  budget_year_id : String
deriving DecidableEq, Repr

namespace DashboardService

/-- Predicate of the `incomes` fetch (also `expenses`):
`.eq('user_id', userId).eq('budget_year_id', budgetYearId || '')`. -/
def incomesQueryPred (userId : String) (budgetYearId : Option String)
    (r : ScopedRow) : Bool :=
  r.owner == userId && r.budget_year_id == budgetYearId.getD ""

/-- Predicate of the `debts`, `tasks`, `tithe_given` and `asset_snapshots`
fetches: `.eq('user_id', userId)`. -/
def userOnlyQueryPred (userId : String) (r : ScopedRow) : Bool :=
  r.owner == userId

/-- Predicate of the `fund_budgets` fetch:
`.eq('budget_year_id', budgetYearId || '')` — and nothing else; no
user-id (or ownership) condition appears in the query. -/
def fundBudgetsQueryPred (budgetYearId : Option String) (r : ScopedRow) : Bool :=
  r.budget_year_id == budgetYearId.getD ""

end DashboardService

/-! ### Helper lemmas -/

theorem jsParseIntOr_none (d : Int) : jsParseIntOr d none = d := rfl

theorem jsParseIntOr_none_of_unparsable (d : Int) (s : String)
    (h : jsParseInt s = none) : jsParseIntOr d (some s) = d := by
  simp [jsParseIntOr, h]

theorem jsParseIntOr_some (d : Int) (s : String) (n : Int)
    (h : jsParseInt s = some n) (hn : n ≠ 0) : jsParseIntOr d (some s) = n := by
  simp [jsParseIntOr, h, hn]

namespace BudgetYearService

theorem deactivateAll_inactive (userId : String) (db : List BYRow) (r : BYRow)
    (hr : r ∈ deactivateAll userId db) (hu : r.user_id = userId) :
    r.is_active = false := by
  rcases List.mem_map.mp hr with ⟨a, _, ha⟩
  by_cases h : a.user_id == userId
  · simp only [deactivateAll, h, if_pos] at ha
    simp [← ha]
  · simp only [deactivateAll, h, if_neg, Bool.false_eq_true, not_false_iff] at ha
    subst ha
    simp [beq_iff_eq, hu] at h

theorem deactivateAll_keys (userId : String) (db : List BYRow) (r : BYRow)
    (hr : r ∈ deactivateAll userId db) :
    ∃ a ∈ db, r.id = a.id ∧ r.user_id = a.user_id := by
  rcases List.mem_map.mp hr with ⟨a, ha, hfa⟩
  refine ⟨a, ha, ?_⟩
  by_cases h : a.user_id == userId <;> simp [h] at hfa <;> simp [← hfa]

theorem setActive_active (budgetYearId userId : String) (db : List BYRow) (r : BYRow)
    (hr : r ∈ setActive budgetYearId userId db)
    (hp : targetPred budgetYearId userId r = true) : r.is_active = true := by
  rcases List.mem_map.mp hr with ⟨a, _, hfa⟩
  by_cases h : targetPred budgetYearId userId a
  · simp only [setActive, h, if_pos] at hfa
    simp [← hfa]
  · simp only [setActive, h, if_neg, Bool.false_eq_true, not_false_iff] at hfa
    subst hfa
    exact absurd hp (by simp [h])

theorem setActive_mem_of_unmatched (budgetYearId userId : String) (db : List BYRow)
    (r : BYRow) (hr : r ∈ setActive budgetYearId userId db)
    (hp : targetPred budgetYearId userId r = false) : r ∈ db := by
  rcases List.mem_map.mp hr with ⟨a, ha, hfa⟩
  by_cases h : targetPred budgetYearId userId a
  · exfalso
    simp only [setActive, h, if_pos] at hfa
    have : targetPred budgetYearId userId r = true := by
      simp only [targetPred] at h ⊢
      simp [← hfa]
      simpa [targetPred] using h
    simp [this] at hp
  · simp only [setActive, h, if_neg, Bool.false_eq_true, not_false_iff] at hfa
    subst hfa; exact ha

end BudgetYearService

theorem sumBy_append (f : α → ℚ) (l1 l2 : List α) :
    sumBy f (l1 ++ l2) = sumBy f l1 + sumBy f l2 := by
  simp [sumBy]

theorem aggTotal_cons [DecidableEq κ] (p : κ × Nat × ℚ) (l : List (κ × Nat × ℚ)) :
    aggTotal (p :: l) = p.2.2 + aggTotal l := by
  simp [aggTotal]

theorem aggCount_cons [DecidableEq κ] (p : κ × Nat × ℚ) (l : List (κ × Nat × ℚ)) :
    aggCount (p :: l) = p.2.1 + aggCount l := by
  simp [aggCount]

theorem aggTotal_bump [DecidableEq κ] (k : κ) (a : ℚ) (l : List (κ × Nat × ℚ)) :
    aggTotal (bump k a l) = aggTotal l + a := by
  induction l with
  | nil => simp [bump, aggTotal]
  | cons p rest ih =>
    by_cases h : p.1 = k
    · rw [bump, if_pos h, aggTotal_cons, aggTotal_cons]
      ring
    · rw [bump, if_neg h, aggTotal_cons, aggTotal_cons, ih]
      ring

theorem aggCount_bump [DecidableEq κ] (k : κ) (a : ℚ) (l : List (κ × Nat × ℚ)) :
    aggCount (bump k a l) = aggCount l + 1 := by
  induction l with
  | nil => simp [bump, aggCount]
  | cons p rest ih =>
    by_cases h : p.1 = k
    · rw [bump, if_pos h, aggCount_cons, aggCount_cons]
      show p.2.1 + 1 + aggCount rest = p.2.1 + aggCount rest + 1
      omega
    · rw [bump, if_neg h, aggCount_cons, aggCount_cons, ih]
      omega

theorem aggTotal_foldl [DecidableEq κ] (key : α → κ) (amt : α → ℚ) :
    ∀ (rows : List α) (acc : List (κ × Nat × ℚ)),
      aggTotal (rows.foldl (fun acc r => bump (key r) (amt r) acc) acc) =
        aggTotal acc + sumBy amt rows := by
  intro rows
  induction rows with
  | nil => intro acc; simp [sumBy]
  | cons r rest ih =>
    intro acc
    rw [List.foldl_cons, ih, aggTotal_bump]
    simp [sumBy]
    ring

theorem aggCount_foldl [DecidableEq κ] (key : α → κ) (amt : α → ℚ) :
    ∀ (rows : List α) (acc : List (κ × Nat × ℚ)),
      aggCount (rows.foldl (fun acc r => bump (key r) (amt r) acc) acc) =
        aggCount acc + rows.length := by
  intro rows
  induction rows with
  | nil => intro acc; simp
  | cons r rest ih =>
    intro acc
    rw [List.foldl_cons, ih, aggCount_bump]
    simp
    omega

theorem aggTotal_groupAgg [DecidableEq κ] (key : α → κ) (amt : α → ℚ)
    (rows : List α) : aggTotal (groupAgg key amt rows) = sumBy amt rows := by
  rw [groupAgg, aggTotal_foldl]
  simp [aggTotal]

theorem aggCount_groupAgg [DecidableEq κ] (key : α → κ) (amt : α → ℚ)
    (rows : List α) : aggCount (groupAgg key amt rows) = rows.length := by
  rw [groupAgg, aggCount_foldl]
  simp [aggCount]

/-! ### Claims -/

/-- C6 counterexample: the claim says every filtered list query defaults
`limit` to 50, so with no page/limit filters the fetched range would be
[0, 49] — but `AssetService.getAllAssetSnapshots` defaults `limit` to 20
and fetches [0, 19]. -/
theorem pagination_counterexample :
    assetPaginate none none = ⟨0, 19⟩ ∧ assetPaginate none none ≠ ⟨0, 49⟩ := by
  constructor <;> decide

/-- C6 (amended): filtered list queries paginate with `page` defaulting
to 1, compute offset = (page−1)×limit and fetch rows
[offset, offset+limit−1], and a non-numeric page or limit degrades to the
default; `limit` defaults to 50 in the tithe-style queries (tithes,
incomes, debts, expenses, system settings) but to 20 in the asset-snapshot
query.  In particular page=2 with limit=10 fetches [10, 19] and
page="abc" behaves as page=1. -/
theorem pagination_amended :
    (∀ (d : Int) (l : Option String) (ps : String), jsParseInt ps = none →
        paginate d (some ps) l = paginate d none l) ∧
    (∀ (d : Int) (p : Option String) (ls : String), jsParseInt ls = none →
        paginate d p (some ls) = paginate d p none) ∧
    (∀ (ps ls : String) (pv lv : Int), jsParseInt ps = some pv → pv ≠ 0 →
        jsParseInt ls = some lv → lv ≠ 0 →
        tithePaginate (some ps) (some ls) =
          ⟨(pv - 1) * lv, (pv - 1) * lv + lv - 1⟩) ∧
    (∀ (ps : String) (pv : Int), jsParseInt ps = some pv → pv ≠ 0 →
        assetPaginate (some ps) none = ⟨(pv - 1) * 20, (pv - 1) * 20 + 19⟩) ∧
    tithePaginate none none = ⟨0, 49⟩ ∧
    assetPaginate none none = ⟨0, 19⟩ ∧
    tithePaginate (some "2") (some "10") = ⟨10, 19⟩ ∧
    tithePaginate (some "abc") none = ⟨0, 49⟩ := by
  refine ⟨?_, ?_, ?_, ?_, by decide, by decide, by decide, by decide⟩
  · intro d l ps h
    simp only [paginate]
    rw [jsParseIntOr_none_of_unparsable _ _ h, jsParseIntOr_none]
  · intro d p ls h
    simp only [paginate]
    rw [jsParseIntOr_none_of_unparsable _ _ h, jsParseIntOr_none]
  · intro ps ls pv lv hp hp0 hl hl0
    simp only [tithePaginate, paginate]
    rw [jsParseIntOr_some _ _ _ hp hp0, jsParseIntOr_some _ _ _ hl hl0]
  · intro ps pv hp hp0
    simp only [assetPaginate, paginate]
    rw [jsParseIntOr_some _ _ _ hp hp0, jsParseIntOr_none]
    simp only [PageRange.mk.injEq, true_and]
    omega

/-- C6 witness: the amended statement applied at page="2", limit="10". -/
theorem pagination_amended_witness :
    tithePaginate (some "2") (some "10") = ⟨10, 19⟩ := by
  have h := pagination_amended.2.2.1 "2" "10" 2 10 (by decide) (by decide)
    (by decide) (by decide)
  simpa using h

namespace BudgetYearService

/-- C9: a successful `activateBudgetYear(budgetYearId, userId)` leaves the
budget year with that id active and every other budget year of that user
inactive (so at most one active per user), and the final table is the
two-step clear-all-then-set-one composition. -/
theorem activate_exclusive_spec (budgetYearId userId : String)
    (db db2 : List BYRow) (row : BYRow)
    (h : activateBudgetYear budgetYearId userId db = (db2, some row)) :
    row.id = budgetYearId ∧ row.user_id = userId ∧ row.is_active = true ∧
    db2 = setActive budgetYearId userId (deactivateAll userId db) ∧
    (∀ r ∈ db2, r.user_id = userId → r.id ≠ budgetYearId → r.is_active = false) ∧
    (∀ r ∈ db2, r.user_id = userId → r.is_active = true → r.id = budgetYearId) := by
  rw [activateBudgetYear] at h
  split at h
  case isFalse => simp at h
  case isTrue hone =>
    rw [Prod.mk.injEq] at h
    obtain ⟨hdb2, hrow⟩ := h
    have hmem : row ∈ (setActive budgetYearId userId
        (deactivateAll userId db)).filter (targetPred budgetYearId userId) :=
      List.mem_of_mem_head? hrow
    rw [List.mem_filter] at hmem
    obtain ⟨hrs, hrp⟩ := hmem
    have hkeys : row.id = budgetYearId ∧ row.user_id = userId := by
      simpa [targetPred, Bool.and_eq_true, beq_iff_eq] using hrp
    have hinactive : ∀ r ∈ db2, r.user_id = userId → r.id ≠ budgetYearId →
        r.is_active = false := by
      intro r hr hu hid
      have hp : targetPred budgetYearId userId r = false := by
        simp [targetPred, hid]
      have hr2 : r ∈ setActive budgetYearId userId (deactivateAll userId db) := by
        rw [hdb2]; exact hr
      have : r ∈ deactivateAll userId db :=
        setActive_mem_of_unmatched _ _ _ _ hr2 hp
      exact deactivateAll_inactive _ _ _ this hu
    refine ⟨hkeys.1, hkeys.2, setActive_active _ _ _ _ hrs hrp, hdb2.symm,
      hinactive, ?_⟩
    intro r hr hu hact
    by_contra hid
    exact absurd hact (by simp [hinactive r hr hu hid])

/-- C9 witness: activating "y2" for user "u" on a table where "y1" is
active succeeds and the spec's conclusions follow. -/
theorem activate_exclusive_spec_witness :
    (⟨"y2", "u", true⟩ : BYRow).id = "y2" ∧
    (⟨"y2", "u", true⟩ : BYRow).is_active = true := by
  have h := activate_exclusive_spec "y2" "u"
    [⟨"y1", "u", true⟩, ⟨"y2", "u", false⟩]
    [⟨"y1", "u", false⟩, ⟨"y2", "u", true⟩] ⟨"y2", "u", true⟩ (by decide)
  exact ⟨h.1, h.2.2.1⟩

/-- C10: when the second step of `activateBudgetYear` matches no row (no
budget year with the given id belongs to the user), the call errors, yet
step 1's clear-all write persists: the user is left with zero active
budget years (the previously active one is not restored). -/
theorem activate_error_spec (budgetYearId userId : String) (db : List BYRow)
    (h : ∀ r ∈ db, ¬(r.id = budgetYearId ∧ r.user_id = userId)) :
    (activateBudgetYear budgetYearId userId db).2 = none ∧
    (activateBudgetYear budgetYearId userId db).1 = deactivateAll userId db ∧
    ∀ r ∈ (activateBudgetYear budgetYearId userId db).1,
      r.user_id = userId → r.is_active = false := by
  have hnil : (deactivateAll userId db).filter (targetPred budgetYearId userId)
      = [] := by
    rw [List.filter_eq_nil_iff]
    intro r hr
    obtain ⟨a, ha, hid, hu⟩ := deactivateAll_keys userId db r hr
    have := h a ha
    simp only [targetPred, Bool.and_eq_true, beq_iff_eq, hid, hu]
    tauto
  have hbr : activateBudgetYear budgetYearId userId db =
      (deactivateAll userId db, none) := by
    rw [activateBudgetYear, hnil]
    simp
  refine ⟨by rw [hbr], by rw [hbr], ?_⟩
  intro r hr hu
  rw [hbr] at hr
  exact deactivateAll_inactive _ _ _ hr hu

/-- C10 witness: activating a nonexistent "y2" for user "u" errors and
leaves the previously active "y1" deactivated. -/
theorem activate_error_spec_witness :
    (activateBudgetYear "y2" "u" [⟨"y1", "u", true⟩]).2 = none ∧
    (activateBudgetYear "y2" "u" [⟨"y1", "u", true⟩]).1 =
      [⟨"y1", "u", false⟩] := by
  have h := activate_error_spec "y2" "u" [⟨"y1", "u", true⟩] (by decide)
  exact ⟨h.1, by rw [h.2.1]; decide⟩

end BudgetYearService

/-- C7: every groupBy-style summary partitions its input: the per-group
totals sum to the overall total and the per-group counts sum to the
overall count, for the income bySource/byMonth, expense
byCategory/byFund/byMonth and tithe byYear groupings; records with a
missing/empty key go to the sentinel group ("Other" for income source,
"Uncategorized" for expense category, "Unknown" for expense fund), so no
record is lost or double-counted. -/
theorem groupby_partition_spec :
    (∀ data, aggTotal (IncomeService.getIncomeSummary data).bySource =
        (IncomeService.getIncomeSummary data).totalAmount ∧
      aggCount (IncomeService.getIncomeSummary data).bySource =
        (IncomeService.getIncomeSummary data).incomeCount ∧
      aggTotal (IncomeService.getIncomeSummary data).byMonth =
        (IncomeService.getIncomeSummary data).totalAmount ∧
      aggCount (IncomeService.getIncomeSummary data).byMonth =
        (IncomeService.getIncomeSummary data).incomeCount) ∧
    (∀ data, aggTotal (ExpenseService.getExpenseSummary data).byCategory =
        (ExpenseService.getExpenseSummary data).totalAmount ∧
      aggCount (ExpenseService.getExpenseSummary data).byCategory =
        (ExpenseService.getExpenseSummary data).expenseCount ∧
      aggTotal (ExpenseService.getExpenseSummary data).byFund =
        (ExpenseService.getExpenseSummary data).totalAmount ∧
      aggCount (ExpenseService.getExpenseSummary data).byFund =
        (ExpenseService.getExpenseSummary data).expenseCount ∧
      aggTotal (ExpenseService.getExpenseSummary data).byMonth =
        (ExpenseService.getExpenseSummary data).totalAmount ∧
      aggCount (ExpenseService.getExpenseSummary data).byMonth =
        (ExpenseService.getExpenseSummary data).expenseCount) ∧
    (∀ titheData incomeData,
      aggTotal (TitheService.getTitheSummary titheData incomeData).byYear =
        (TitheService.getTitheSummary titheData incomeData).totalTitheGiven ∧
      aggCount (TitheService.getTitheSummary titheData incomeData).byYear =
        (TitheService.getTitheSummary titheData incomeData).titheCount) ∧
    (∀ r : IncomeService.IncomeRec, (r.source = none ∨ r.source = some "") →
        IncomeService.sourceKey r = "Other") ∧
    (∀ r : ExpenseService.ExpenseRec, r.categoryName = none →
        ExpenseService.categoryKey r = "Uncategorized") ∧
    (∀ r : ExpenseService.ExpenseRec, r.fundName = none →
        ExpenseService.fundKey r = "Unknown") := by
  refine ⟨?_, ?_, ?_, ?_, ?_, ?_⟩
  · intro data
    simp [IncomeService.getIncomeSummary, aggTotal_groupAgg, aggCount_groupAgg]
  · intro data
    simp [ExpenseService.getExpenseSummary, aggTotal_groupAgg, aggCount_groupAgg]
  · intro titheData incomeData
    simp [TitheService.getTitheSummary, aggTotal_groupAgg, aggCount_groupAgg]
  · rintro r (h | h) <;> simp [IncomeService.sourceKey, jsOrStr, h]
  · intro r h
    simp [ExpenseService.categoryKey, jsOrStr, h]
  · intro r h
    simp [ExpenseService.fundKey, jsOrStr, h]

/-- C7 witness: the partition equalities and the sentinel assignment at a
concrete two-record input with one missing source. -/
theorem groupby_partition_spec_witness :
    aggTotal (IncomeService.getIncomeSummary
        [⟨100, some "salary", 1⟩, ⟨50, none, 2⟩]).bySource =
      (IncomeService.getIncomeSummary
        [⟨100, some "salary", 1⟩, ⟨50, none, 2⟩]).totalAmount ∧
    IncomeService.sourceKey ⟨50, none, 2⟩ = "Other" := by
  exact ⟨(groupby_partition_spec.1 _).1,
    groupby_partition_spec.2.2.2.1 ⟨50, none, 2⟩ (Or.inl rfl)⟩

namespace DashboardService

/-- C2 counterexample: the `fund_budgets` fetch of the dashboard applies
no user-id predicate — a row owned (via its fund) by "mallory" satisfies
the query predicate of a request by "alice" whenever the budget-year key
matches, so the fund-budgets result is not unaffected by another user's
rows. -/
theorem user_scoping_counterexample :
    fundBudgetsQueryPred (some "y1") ⟨"mallory", "y1"⟩ = true ∧
    (⟨"mallory", "y1"⟩ : ScopedRow).owner ≠ "alice" ∧
    ([(⟨"mallory", "y1"⟩ : ScopedRow)].filter (fundBudgetsQueryPred (some "y1")))
      ≠ [] := by
  refine ⟨by decide, by decide, by decide⟩

/-- C2 (amended): six of the dashboard's seven parallel fetches — incomes
and expenses (user-id plus budget-year equality) and debts, tasks, tithes
and asset snapshots (user-id equality) — admit only rows owned by the
requesting user, and their results are unaffected by other users' rows;
the `fund_budgets` fetch filters by budget-year key only, its predicate
being independent of the row's owner. -/
theorem user_scoping_amended :
    (∀ (userId : String) (budgetYearId : Option String) (r : ScopedRow),
        incomesQueryPred userId budgetYearId r = true → r.owner = userId) ∧
    (∀ (userId : String) (r : ScopedRow),
        userOnlyQueryPred userId r = true → r.owner = userId) ∧
    (∀ (userId : String) (budgetYearId : Option String)
        (rows others : List ScopedRow), (∀ r ∈ others, r.owner ≠ userId) →
        (rows ++ others).filter (incomesQueryPred userId budgetYearId) =
          rows.filter (incomesQueryPred userId budgetYearId)) ∧
    (∀ (userId : String) (rows others : List ScopedRow),
        (∀ r ∈ others, r.owner ≠ userId) →
        (rows ++ others).filter (userOnlyQueryPred userId) =
          rows.filter (userOnlyQueryPred userId)) ∧
    (∀ (budgetYearId : Option String) (r1 r2 : ScopedRow),
        r1.budget_year_id = r2.budget_year_id →
        fundBudgetsQueryPred budgetYearId r1 =
          fundBudgetsQueryPred budgetYearId r2) := by
  refine ⟨?_, ?_, ?_, ?_, ?_⟩
  · intro userId budgetYearId r h
    simp only [incomesQueryPred, Bool.and_eq_true, beq_iff_eq] at h
    exact h.1
  · intro userId r h
    simpa only [userOnlyQueryPred, beq_iff_eq] using h
  · intro userId budgetYearId rows others h
    have hnil : others.filter (incomesQueryPred userId budgetYearId) = [] := by
      rw [List.filter_eq_nil_iff]
      intro r hr
      simp only [incomesQueryPred, Bool.and_eq_true, beq_iff_eq, not_and]
      intro ho
      exact absurd ho (h r hr)
    rw [List.filter_append, hnil, List.append_nil]
  · intro userId rows others h
    have hnil : others.filter (userOnlyQueryPred userId) = [] := by
      rw [List.filter_eq_nil_iff]
      intro r hr
      simp only [userOnlyQueryPred, beq_iff_eq]
      exact h r hr
    rw [List.filter_append, hnil, List.append_nil]
  · intro budgetYearId r1 r2 h
    simp [fundBudgetsQueryPred, h]

/-- C2 witness: the amended statement applied to a concrete pair of
result sets — "bob"'s rows do not change "alice"'s debts-style fetch. -/
theorem user_scoping_amended_witness :
    ([(⟨"alice", "y1"⟩ : ScopedRow), ⟨"bob", "y2"⟩].filter
        (userOnlyQueryPred "alice")) =
      [(⟨"alice", "y1"⟩ : ScopedRow)].filter (userOnlyQueryPred "alice") := by
  have h := user_scoping_amended.2.2.2.1 "alice" [⟨"alice", "y1"⟩]
    [⟨"bob", "y2"⟩] (by decide)
  simpa using h

/-- C1: with months = (endYear−startYear)×12 + (endMonth−startMonth) + 1
floored at 1, every fund-budget row whose fund has include_in_budget
contributes amount×months to totalBudget and amount_given to
totalAllocated when monthly, else amount to totalBudget and spent to
totalSpent; rows with include_in_budget false (or no joined fund)
contribute to none of the accumulators; and
remaining = totalBudget − totalAllocated − totalSpent. -/
theorem budget_allocation_spec :
    (∀ s e : YM, 1 ≤ calculateBudgetMonths s e) ∧
    (∀ s e : YM, 1 ≤ (e.year - s.year) * 12 + (e.month - s.month) + 1 →
        calculateBudgetMonths s e =
          (e.year - s.year) * 12 + (e.month - s.month) + 1) ∧
    (∀ (m : Int) (rows : List FundBudgetRow) (r : FundBudgetRow),
        (r.funds = none ∨ ∃ f, r.funds = some f ∧ f.include_in_budget = false) →
        budgetTotals m (rows ++ [r]) = budgetTotals m rows) ∧
    (∀ (m : Int) (rows : List FundBudgetRow) (r : FundBudgetRow) (f : FundInfo),
        r.funds = some f → f.include_in_budget = true → f.type = "monthly" →
        budgetTotals m (rows ++ [r]) =
          ⟨(budgetTotals m rows).totalBudget + r.amount * (m : ℚ),
           (budgetTotals m rows).totalAllocated + r.amount_given.getD 0,
           (budgetTotals m rows).totalSpent⟩) ∧
    (∀ (m : Int) (rows : List FundBudgetRow) (r : FundBudgetRow) (f : FundInfo),
        r.funds = some f → f.include_in_budget = true → f.type ≠ "monthly" →
        budgetTotals m (rows ++ [r]) =
          ⟨(budgetTotals m rows).totalBudget + r.amount,
           (budgetTotals m rows).totalAllocated,
           (budgetTotals m rows).totalSpent + r.spent.getD 0⟩) ∧
    (∀ aby incomes expenses fundBudgets debts tasks tithes assetDetails,
        (getDashboardSummary aby incomes expenses fundBudgets debts tasks
            tithes assetDetails).remaining =
          (getDashboardSummary aby incomes expenses fundBudgets debts tasks
            tithes assetDetails).budget.totalBudget -
          (getDashboardSummary aby incomes expenses fundBudgets debts tasks
            tithes assetDetails).budget.totalAllocated -
          (getDashboardSummary aby incomes expenses fundBudgets debts tasks
            tithes assetDetails).budget.totalSpent) := by
  have hstep : ∀ (m : Int) (rows : List FundBudgetRow) (r : FundBudgetRow),
      budgetTotals m (rows ++ [r]) =
        processFundBudget m (budgetTotals m rows) r := by
    intro m rows r
    rw [budgetTotals, budgetTotals, List.foldl_append, List.foldl_cons,
      List.foldl_nil]
  refine ⟨?_, ?_, ?_, ?_, ?_, ?_⟩
  · intro s e
    exact le_max_left 1 _
  · intro s e h
    exact max_eq_right h
  · rintro m rows r (h | ⟨f, hf, hinc⟩) <;>
      rw [hstep] <;> simp [processFundBudget, *]
  · intro m rows r f hf hinc htype
    rw [hstep]
    simp [processFundBudget, hf, hinc, htype]
  · intro m rows r f hf hinc htype
    rw [hstep]
    simp [processFundBudget, hf, hinc, htype]
  · intro aby incomes expenses fundBudgets debts tasks tithes assetDetails
    rfl

/-- C1 witness: a monthly fund with amount 100 over a 6-month span
contributes 600 to totalBudget (the spec's §8 instance). -/
theorem budget_allocation_spec_witness :
    budgetTotals 6 [⟨100, some 0, some 0, some ⟨"monthly", true⟩⟩] =
      ⟨600, 0, 0⟩ := by
  have h := budget_allocation_spec.2.2.2.1 6 []
    ⟨100, some 0, some 0, some ⟨"monthly", true⟩⟩ ⟨"monthly", true⟩ rfl rfl rfl
  simp only [List.nil_append] at h
  rw [h]
  show (⟨(0 : ℚ) + 100 * (6 : ℚ), 0 + 0, 0⟩ : BudgetTotals) = ⟨600, 0, 0⟩
  norm_num

end DashboardService

/-- C5 counterexample: on the claim's own scenario
`[{type:'owed_to_me', amount:200, is_paid:false},
{type:'i_owe', amount:50, is_paid:true}]`, the debt summary's `iOwe` is 50,
not 0 — `DebtService.getDebtSummary` sums `owedToMe`/`iOwe` over paid and
unpaid debts alike. -/
theorem debt_summary_counterexample :
    (DebtService.getDebtSummary
        [⟨200, "owed_to_me", false⟩, ⟨50, "i_owe", true⟩]).iOwe = 50 ∧
    (DebtService.getDebtSummary
        [⟨200, "owed_to_me", false⟩, ⟨50, "i_owe", true⟩]).iOwe ≠ 0 := by
  constructor <;> simp [DebtService.getDebtSummary, sumBy]

/-- C5 (amended): the DASHBOARD's debt metrics count unpaid debts only
(`owedToMe`/`iOwe` are untouched by appending a paid debt) with
`netDebt = owedToMe − iOwe`, and on the claim's scenario they give
owedToMe=200, iOwe=0, netDebt=200; `DebtService.getDebtSummary`'s
`owedToMe`/`iOwe` however include paid debts — its unpaid-only sums are
the separate `unpaidOwedToMe`/`unpaidIOwe`/`unpaidNetBalance` fields. -/
theorem debt_summary_amended :
    (∀ aby incomes expenses fundBudgets debts tasks tithes assetDetails
        (d : DebtRow), d.is_paid = true →
        (DashboardService.getDashboardSummary aby incomes expenses fundBudgets
            (debts ++ [d]) tasks tithes assetDetails).owedToMe =
          (DashboardService.getDashboardSummary aby incomes expenses fundBudgets
            debts tasks tithes assetDetails).owedToMe ∧
        (DashboardService.getDashboardSummary aby incomes expenses fundBudgets
            (debts ++ [d]) tasks tithes assetDetails).iOwe =
          (DashboardService.getDashboardSummary aby incomes expenses fundBudgets
            debts tasks tithes assetDetails).iOwe) ∧
    (∀ aby incomes expenses fundBudgets debts tasks tithes assetDetails,
        (DashboardService.getDashboardSummary aby incomes expenses fundBudgets
            debts tasks tithes assetDetails).netDebt =
          (DashboardService.getDashboardSummary aby incomes expenses fundBudgets
            debts tasks tithes assetDetails).owedToMe -
          (DashboardService.getDashboardSummary aby incomes expenses fundBudgets
            debts tasks tithes assetDetails).iOwe) ∧
    (∀ (data : List DebtRow) (d : DebtRow), d.is_paid = true →
        (DebtService.getDebtSummary (data ++ [d])).unpaidOwedToMe =
          (DebtService.getDebtSummary data).unpaidOwedToMe ∧
        (DebtService.getDebtSummary (data ++ [d])).unpaidIOwe =
          (DebtService.getDebtSummary data).unpaidIOwe) ∧
    (∀ (data : List DebtRow) (d : DebtRow), d.type = "i_owe" →
        (DebtService.getDebtSummary (data ++ [d])).iOwe =
          (DebtService.getDebtSummary data).iOwe + d.amount) ∧
    ((DashboardService.getDashboardSummary none [] [] []
        [⟨200, "owed_to_me", false⟩, ⟨50, "i_owe", true⟩] [] [] none).owedToMe
        = 200 ∧
      (DashboardService.getDashboardSummary none [] [] []
        [⟨200, "owed_to_me", false⟩, ⟨50, "i_owe", true⟩] [] [] none).iOwe
        = 0 ∧
      (DashboardService.getDashboardSummary none [] [] []
        [⟨200, "owed_to_me", false⟩, ⟨50, "i_owe", true⟩] [] [] none).netDebt
        = 200) ∧
    ((DebtService.getDebtSummary
        [⟨200, "owed_to_me", false⟩, ⟨50, "i_owe", true⟩]).unpaidOwedToMe = 200 ∧
      (DebtService.getDebtSummary
        [⟨200, "owed_to_me", false⟩, ⟨50, "i_owe", true⟩]).unpaidIOwe = 0 ∧
      (DebtService.getDebtSummary
        [⟨200, "owed_to_me", false⟩, ⟨50, "i_owe", true⟩]).unpaidNetBalance
        = 200) := by
  refine ⟨?_, ?_, ?_, ?_, ?_, ?_⟩
  · intro aby incomes expenses fundBudgets debts tasks tithes assetDetails d hd
    constructor <;>
      simp [DashboardService.getDashboardSummary, List.filter_append, hd,
        sumBy_append, sumBy]
  · intro aby incomes expenses fundBudgets debts tasks tithes assetDetails
    rfl
  · intro data d hd
    constructor <;>
      simp [DebtService.getDebtSummary, List.filter_append, hd,
        sumBy_append, sumBy]
  · intro data d hd
    simp [DebtService.getDebtSummary, List.filter_append, hd,
      sumBy_append, sumBy]
  · refine ⟨?_, ?_, ?_⟩ <;>
      simp [DashboardService.getDashboardSummary, sumBy]
  · refine ⟨?_, ?_, ?_⟩ <;>
      simp [DebtService.getDebtSummary, sumBy]

/-- C5 witness: the amended statement applied to the concrete scenario —
appending the paid i_owe debt leaves the dashboard's iOwe unchanged. -/
theorem debt_summary_amended_witness :
    (DashboardService.getDashboardSummary none [] [] []
        ([⟨200, "owed_to_me", false⟩] ++ [⟨50, "i_owe", true⟩]) [] [] none).iOwe
      = (DashboardService.getDashboardSummary none [] [] []
        [⟨200, "owed_to_me", false⟩] [] [] none).iOwe := by
  exact (debt_summary_amended.1 none [] [] [] [⟨200, "owed_to_me", false⟩]
    [] [] none ⟨50, "i_owe", true⟩ rfl).2

/-- C4: expected tithe = total income × 0.10, tithe balance = total given
− expected tithe, tithe percentage = given/income×100 when income > 0 and
0 when income = 0, in both `TitheService.getTitheSummary` and the
dashboard's tithe block; for incomes [1000, 500] and tithes [100],
expectedTithe = 150 and tithePercentage = 20/3 (≈ 6.67). -/
theorem tithe_metrics_spec :
    (∀ titheData incomeData,
        (TitheService.getTitheSummary titheData incomeData).expectedTithe =
          (TitheService.getTitheSummary titheData incomeData).totalIncome *
            (1 / 10)) ∧
    (∀ titheData incomeData,
        (TitheService.getTitheSummary titheData incomeData).titheBalance =
          (TitheService.getTitheSummary titheData incomeData).totalTitheGiven -
          (TitheService.getTitheSummary titheData incomeData).expectedTithe) ∧
    (∀ titheData incomeData,
        0 < (TitheService.getTitheSummary titheData incomeData).totalIncome →
        (TitheService.getTitheSummary titheData incomeData).tithePercentage =
          (TitheService.getTitheSummary titheData incomeData).totalTitheGiven /
          (TitheService.getTitheSummary titheData incomeData).totalIncome
            * 100) ∧
    (∀ titheData incomeData,
        (TitheService.getTitheSummary titheData incomeData).totalIncome = 0 →
        (TitheService.getTitheSummary titheData incomeData).tithePercentage
          = 0) ∧
    (∀ aby incomes expenses fundBudgets debts tasks tithes assetDetails,
        (DashboardService.getDashboardSummary aby incomes expenses fundBudgets
            debts tasks tithes assetDetails).titheExpected =
          (DashboardService.getDashboardSummary aby incomes expenses fundBudgets
            debts tasks tithes assetDetails).totalIncome * (1 / 10) ∧
        (DashboardService.getDashboardSummary aby incomes expenses fundBudgets
            debts tasks tithes assetDetails).titheBalance =
          (DashboardService.getDashboardSummary aby incomes expenses fundBudgets
            debts tasks tithes assetDetails).titheGiven -
          (DashboardService.getDashboardSummary aby incomes expenses fundBudgets
            debts tasks tithes assetDetails).titheExpected) ∧
    ((TitheService.getTitheSummary [⟨100, 2024⟩] [1000, 500]).expectedTithe
        = 150 ∧
      (TitheService.getTitheSummary [⟨100, 2024⟩] [1000, 500]).tithePercentage
        = 20 / 3) := by
  refine ⟨?_, ?_, ?_, ?_, ?_, ?_, ?_⟩
  · intro titheData incomeData
    rfl
  · intro titheData incomeData
    rfl
  · intro titheData incomeData h
    simp only [TitheService.getTitheSummary] at h ⊢
    rw [if_pos h]
  · intro titheData incomeData h
    simp only [TitheService.getTitheSummary] at h ⊢
    rw [if_neg (by rw [h]; exact lt_irrefl 0)]
  · intro aby incomes expenses fundBudgets debts tasks tithes assetDetails
    exact ⟨rfl, rfl⟩
  · show sumBy id [1000, 500] * (1 / 10) = 150
    norm_num [sumBy]
  · show (if (0 : ℚ) < sumBy id [1000, 500]
        then sumBy (·.amount) [(⟨100, 2024⟩ : TitheService.TitheRow)] /
          sumBy id [1000, 500] * 100 else 0) = 20 / 3
    norm_num [sumBy]

/-- C4 witness: the percentage branch applied to the scenario
incomes [1000, 500], tithes [100]. -/
theorem tithe_metrics_spec_witness :
    (TitheService.getTitheSummary [⟨100, 2024⟩] [1000, 500]).tithePercentage =
      (TitheService.getTitheSummary [⟨100, 2024⟩] [1000, 500]).totalTitheGiven /
      (TitheService.getTitheSummary [⟨100, 2024⟩] [1000, 500]).totalIncome
        * 100 := by
  refine tithe_metrics_spec.2.2.1 [⟨100, 2024⟩] [1000, 500] ?_
  show (0 : ℚ) < sumBy id [1000, 500]
  norm_num [sumBy]

/-- C8: every summary reducer, applied to empty input, returns zeroed
metrics (no exception is modelled: the folds are total); averages are
total/count for count > 0 and 0 for count = 0; and percentages and growth
rates with a zero denominator are 0. -/
theorem empty_input_spec :
    TitheService.getTitheSummary [] [] = ⟨0, 0, 0, 0, 0, 0, 0, []⟩ ∧
    IncomeService.getIncomeSummary [] = ⟨0, 0, 0, [], []⟩ ∧
    ExpenseService.getExpenseSummary [] = ⟨0, 0, 0, [], [], []⟩ ∧
    DebtService.getDebtSummary [] = ⟨0, 0, 0, 0, 0, 0, 0, 0, 0⟩ ∧
    AssetService.getAssetTrends [] = ⟨[], ⟨0, 0⟩⟩ ∧
    DashboardService.getDashboardSummary none [] [] [] [] [] [] none =
      ⟨0, 0, ⟨0, 0, 0⟩, 0, 0, 0, 0, 0, 0, 0, 0, 0, 0, 0, 0, 0, 0⟩ ∧
    (∀ titheData incomeData,
        (TitheService.getTitheSummary titheData incomeData).titheCount = 0 →
        (TitheService.getTitheSummary titheData incomeData).averageTithe
          = 0) ∧
    (∀ titheData incomeData,
        0 < (TitheService.getTitheSummary titheData incomeData).titheCount →
        (TitheService.getTitheSummary titheData incomeData).averageTithe =
          (TitheService.getTitheSummary titheData incomeData).totalTitheGiven /
          ((TitheService.getTitheSummary titheData
            incomeData).titheCount : ℚ)) ∧
    (∀ data, (IncomeService.getIncomeSummary data).incomeCount = 0 →
        (IncomeService.getIncomeSummary data).averageAmount = 0) ∧
    (∀ data, 0 < (IncomeService.getIncomeSummary data).incomeCount →
        (IncomeService.getIncomeSummary data).averageAmount =
          (IncomeService.getIncomeSummary data).totalAmount /
          ((IncomeService.getIncomeSummary data).incomeCount : ℚ)) ∧
    (∀ data, (ExpenseService.getExpenseSummary data).expenseCount = 0 →
        (ExpenseService.getExpenseSummary data).averageAmount = 0) ∧
    (∀ data, (AssetService.getAssetTrends data).trends.length ≤ 1 →
        (AssetService.getAssetTrends data).summary.averageGrowthRate = 0) ∧
    (∀ aby incomes expenses fundBudgets debts tasks tithes assetDetails,
        (DashboardService.getDashboardSummary aby incomes expenses fundBudgets
            debts tasks tithes assetDetails).totalIncome = 0 →
        (DashboardService.getDashboardSummary aby incomes expenses fundBudgets
            debts tasks tithes assetDetails).tithePercentage = 0) := by
  refine ⟨?_, ?_, ?_, ?_, ?_, ?_, ?_, ?_, ?_, ?_, ?_, ?_, ?_⟩
  · simp [TitheService.getTitheSummary, sumBy, groupAgg]
  · simp [IncomeService.getIncomeSummary, sumBy, groupAgg]
  · simp [ExpenseService.getExpenseSummary, sumBy, groupAgg]
  · simp [DebtService.getDebtSummary, sumBy]
  · simp [AssetService.getAssetTrends, AssetService.trendsWithGrowth,
      AssetService.withGrowthAux, sumBy]
  · simp [DashboardService.getDashboardSummary, DashboardService.budgetTotals,
      sumBy]
  · intro titheData incomeData h
    simp only [TitheService.getTitheSummary] at h ⊢
    simp [h]
  · intro titheData incomeData h
    simp only [TitheService.getTitheSummary] at h ⊢
    rw [if_pos h]
  · intro data h
    simp only [IncomeService.getIncomeSummary] at h ⊢
    simp [h]
  · intro data h
    simp only [IncomeService.getIncomeSummary] at h ⊢
    rw [if_pos h]
  · intro data h
    simp only [ExpenseService.getExpenseSummary] at h ⊢
    simp [h]
  · intro data h
    simp only [AssetService.getAssetTrends] at h ⊢
    rw [if_neg (by omega)]
  · intro aby incomes expenses fundBudgets debts tasks tithes assetDetails h
    simp only [DashboardService.getDashboardSummary] at h ⊢
    simp [h]

/-- C8 witness: the average-of-empty branch applied to the empty tithe
input. -/
theorem empty_input_spec_witness :
    (TitheService.getTitheSummary [] []).averageTithe = 0 := by
  exact empty_input_spec.2.2.2.2.2.2.1 [] [] rfl

namespace AssetService

theorem netWorths_withGrowthAux (l : List Trend) :
    ∀ p, (withGrowthAux p l).map (·.netWorth) = l.map (·.netWorth) := by
  induction l with
  | nil => intro p; rfl
  | cons t rest ih => intro p; simp [withGrowthAux, ih]

theorem withGrowthAux_growthRate (i : Nat) :
    ∀ (l : List Trend) (prev : ℚ),
      ((withGrowthAux (some prev) l)[i]?).map (·.growthRate) =
        (l[i]?).map (fun c => growthRateOf
          (((prev :: l.map (·.netWorth))[i]?).getD 0) c.netWorth) := by
  induction i with
  | zero =>
    intro l prev
    cases l <;> simp [withGrowthAux]
  | succ j ih =>
    intro l prev
    cases l with
    | nil => simp [withGrowthAux]
    | cons t rest =>
      simpa [withGrowthAux, List.getElem?_cons_succ] using ih rest t.netWorth

theorem trendsWithGrowth_first (l : List Trend) :
    ((trendsWithGrowth l)[0]?).map (·.growthRate) =
      (l[0]?).map (fun _ => (0 : ℚ)) := by
  cases l <;> simp [trendsWithGrowth, withGrowthAux]

theorem trendsWithGrowth_growthRate (l : List Trend) (i : Nat) :
    ((trendsWithGrowth l)[i + 1]?).map (·.growthRate) =
      (l[i + 1]?).map (fun c => growthRateOf
        (((l[i]?).map (·.netWorth)).getD 0) c.netWorth) := by
  cases l with
  | nil => simp [trendsWithGrowth, withGrowthAux]
  | cons t rest =>
    have h := withGrowthAux_growthRate i rest t.netWorth
    have hm : (((t :: rest)[i]?).map (fun x => x.netWorth)) =
        (t.netWorth :: rest.map (fun x => x.netWorth))[i]? := by
      rw [← List.getElem?_map, List.map_cons]
    simp only [trendsWithGrowth, withGrowthAux, List.getElem?_cons_succ, hm]
    exact h

theorem trendsWithGrowth_netWorth_getLast (l : List Trend) :
    ((trendsWithGrowth l).getLast?).map (·.netWorth) =
      (l.getLast?).map (·.netWorth) := by
  have h := netWorths_withGrowthAux l none
  calc ((trendsWithGrowth l).getLast?).map (·.netWorth)
      = ((trendsWithGrowth l).map (·.netWorth)).getLast? :=
        (List.getLast?_map _ _).symm
    _ = (l.map (·.netWorth)).getLast? := by rw [trendsWithGrowth, h]
    _ = (l.getLast?).map (·.netWorth) := List.getLast?_map _ _

/-- C3: over the snapshots in ascending date order, with
netWorth = assets − liabilities: the first trend's growthRate is 0, every
later growthRate is (cur − prev)/|prev|×100 (0 when prev = 0),
currentNetWorth is the last snapshot's netWorth (0 when there are none),
averageGrowthRate is the mean of the rates excluding the first (0 when
fewer than 2 snapshots); the netWorth sequence [1000, 1100, 990] yields
rates [0, 10, −10] with average 0. -/
theorem asset_trends_spec :
    (∀ s, (snapshotTrend s).netWorth =
        sumBy (·.amount) (s.asset_details.filter (fun d => d.category == "asset"))
          - sumBy (·.amount)
              (s.asset_details.filter (fun d => d.category == "liability"))) ∧
    (∀ p c, growthRateOf p c = if p ≠ 0 then (c - p) / |p| * 100 else 0) ∧
    (∀ data, (((getAssetTrends data).trends)[0]?).map (·.growthRate) =
        ((((data.map snapshotTrend).reverse))[0]?).map (fun _ => (0 : ℚ))) ∧
    (∀ data (i : Nat),
        (((getAssetTrends data).trends)[i + 1]?).map (·.growthRate) =
          (((data.map snapshotTrend).reverse)[i + 1]?).map (fun c =>
            growthRateOf
              (((((data.map snapshotTrend).reverse)[i]?).map
                (·.netWorth)).getD 0) c.netWorth)) ∧
    (∀ data, (getAssetTrends data).summary.currentNetWorth =
        ((((data.map snapshotTrend).reverse).getLast?).map
          (·.netWorth)).getD 0) ∧
    (∀ data, 1 < (getAssetTrends data).trends.length →
        (getAssetTrends data).summary.averageGrowthRate =
          sumBy (·.growthRate) ((getAssetTrends data).trends.drop 1) /
            (((getAssetTrends data).trends.length : ℚ) - 1)) ∧
    (∀ data, (getAssetTrends data).trends.length ≤ 1 →
        (getAssetTrends data).summary.averageGrowthRate = 0) ∧
    ((getAssetTrends [⟨2, [⟨990, "asset"⟩]⟩, ⟨1, [⟨1100, "asset"⟩]⟩,
        ⟨0, [⟨1000, "asset"⟩]⟩]).trends.map (·.growthRate) = [0, 10, -10] ∧
      (getAssetTrends [⟨2, [⟨990, "asset"⟩]⟩, ⟨1, [⟨1100, "asset"⟩]⟩,
        ⟨0, [⟨1000, "asset"⟩]⟩]).summary.currentNetWorth = 990 ∧
      (getAssetTrends [⟨2, [⟨990, "asset"⟩]⟩, ⟨1, [⟨1100, "asset"⟩]⟩,
        ⟨0, [⟨1000, "asset"⟩]⟩]).summary.averageGrowthRate = 0) := by
  refine ⟨?_, ?_, ?_, ?_, ?_, ?_, ?_, ?_⟩
  · intro s
    rfl
  · intro p c
    rfl
  · intro data
    exact trendsWithGrowth_first _
  · intro data i
    exact trendsWithGrowth_growthRate _ i
  · intro data
    show (((trendsWithGrowth ((data.map snapshotTrend).reverse)).getLast?).map
        (·.netWorth)).getD 0 = _
    rw [trendsWithGrowth_netWorth_getLast]
  · intro data h
    simp only [getAssetTrends] at h ⊢
    rw [if_pos h]
  · intro data h
    simp only [getAssetTrends] at h ⊢
    rw [if_neg (by omega)]
  · refine ⟨?_, ?_, ?_⟩ <;>
      simp [getAssetTrends, snapshotTrend, trendsWithGrowth,
        withGrowthAux, growthRateOf, sumBy] <;>
      norm_num

/-- C3 witness: the fewer-than-2-snapshots branch applied to a single
snapshot. -/
theorem asset_trends_spec_witness :
    (getAssetTrends [⟨0, [⟨7, "asset"⟩]⟩]).summary.averageGrowthRate = 0 := by
  refine asset_trends_spec.2.2.2.2.2.2.1 [⟨0, [⟨7, "asset"⟩]⟩] ?_
  simp [getAssetTrends, trendsWithGrowth, withGrowthAux]

end AssetService

end BudgetApi
